import Mathlib

/-!
Verification development for the xivo-agid core engine
(`src/xivo_agid/agid.py`): the database connection pool, the handler
registry with its per-handler reader-writer lock, the FastAGI request
dispatcher and the SIGHUP reload coordinator.

Shallow embedding conventions:
* Database connections are identified by numeric ids allocated by a
  monotone counter (`nextConn`); `anysql.connect_by_uri` is modelled as
  allocating a fresh id and recording it, together with the uri it was
  opened against, in the `opened` log.  Closing a connection records its
  id in the `closed` log.
* The Python reserve `self.conns` is a list used as a stack:
  `list.append` pushes at the tail and `list.pop()` pops the tail.  We
  keep the stack top at the HEAD of the Lean list, so the Lean list is
  the Python list reversed; `len(self.conns)` is the list length either
  way.
* Nondeterminism of the environment (does a setup routine raise? does
  the RWLock's deadlock-avoidance check refuse a write acquisition?) is
  resolved by explicit Boolean oracle parameters.
* Python exceptions are modelled by explicit exception values threaded
  through the control flow; `try/finally` is unfolded into "run the
  body, then run the finaliser, then propagate".
-/

namespace XivoAgid

/-- State of a `DBConnectionPool` (agid.py lines 36-72), together with
bookkeeping logs (`opened`, `closed`) that record the externally
observable effects `anysql.connect_by_uri` and `conn.close()`. -/
structure PoolState where
  /-- the idle reserve `self.conns`; head of the list = top of the
  Python stack (most recently appended, first popped). -/
  conns : List Nat
  /-- `self.size` -/
  size : Nat
  /-- `self.db_uri` (`None` before the first reload). -/
  db_uri : Option String
  /-- fresh-id counter standing for `anysql.connect_by_uri` allocation. -/
  nextConn : Nat
  /-- ids of connections that have been closed (`conn.close()`). -/
  closed : List Nat
  /-- log of `connect_by_uri` calls: (connection id, uri it was opened
  against), most recent first. -/
  opened : List (Nat × Option String)
  deriving Repr, DecidableEq

namespace DBConnectionPool

/-- `DBConnectionPool.__init__`: empty reserve, size 0, no uri. -/
def init : PoolState :=
  { conns := [], size := 0, db_uri := none, nextConn := 0, closed := [], opened := [] }

/-- `DBConnectionPool.reload(size, db_uri)`: close every held
connection, open `size` fresh connections against `db_uri`, record the
new size and uri.  The Python comprehension creates connections in
order, so the last-created one is on top of the stack (head here). -/
def reload (size : Nat) (db_uri : String) (s : PoolState) : PoolState :=
  { conns := (List.range' s.nextConn size).reverse
    size := size
    db_uri := some db_uri
    nextConn := s.nextConn + size
    closed := s.conns ++ s.closed
    opened := ((List.range' s.nextConn size).map (fun c => (c, some db_uri))).reverse ++ s.opened }

/-- `DBConnectionPool.acquire()`: pop from the reserve if non-empty
(`self.conns.pop()`), otherwise open a brand-new connection against the
current uri (`anysql.connect_by_uri(self.db_uri)`).  Total: it never
blocks. -/
def acquire (s : PoolState) : Nat × PoolState :=
  match s.conns with
  | c :: rest => (c, { s with conns := rest })
  | [] => (s.nextConn,
      { s with nextConn := s.nextConn + 1
               opened := (s.nextConn, s.db_uri) :: s.opened })

/-- `DBConnectionPool.release(conn)`: if the reserve holds fewer than
`self.size` connections, push `conn` back, else close it. -/
def release (conn : Nat) (s : PoolState) : PoolState :=
  if s.conns.length < s.size then { s with conns := conn :: s.conns }
  else { s with closed := conn :: s.closed }

end DBConnectionPool

/-- One pool operation, for reasoning about all reachable pool states. -/
inductive PoolOp where
  | reload (size : Nat) (db_uri : String)
  | acquire
  | release (conn : Nat)
  deriving Repr, DecidableEq

/-- Apply one operation to a pool state (the connection returned by
`acquire` is irrelevant to the pool's own state evolution; `release`
may be handed any connection id, as in the Python code). -/
def PoolOp.apply (s : PoolState) : PoolOp → PoolState
  | .reload n u => DBConnectionPool.reload n u s
  | .acquire => (DBConnectionPool.acquire s).2
  | .release c => DBConnectionPool.release c s

/-- Run a sequence of pool operations from the freshly constructed
pool. -/
def runOps (ops : List PoolOp) : PoolState :=
  ops.foldl PoolOp.apply DBConnectionPool.init

/-- `acquire` iterated `n` times, collecting the returned connections in
order. -/
def acquireN : Nat → PoolState → List Nat × PoolState
  | 0, s => ([], s)
  | n + 1, s =>
    let p := DBConnectionPool.acquire s
    let q := acquireN n p.2
    (p.1 :: q.1, q.2)

/-- The idle-reserve bound is preserved by every single operation. -/
theorem poolOp_apply_length_le (s : PoolState) (op : PoolOp)
    (h : s.conns.length ≤ s.size) :
    (PoolOp.apply s op).conns.length ≤ (PoolOp.apply s op).size := by
  cases op with
  | reload n u => simp [PoolOp.apply, DBConnectionPool.reload]
  | acquire =>
    cases hc : s.conns with
    | nil =>
      simp only [PoolOp.apply, DBConnectionPool.acquire, hc]
      simp
    | cons c rest =>
      simp only [PoolOp.apply, DBConnectionPool.acquire, hc]
      simp only [hc, List.length_cons] at h
      omega
  | release c =>
    simp only [PoolOp.apply, DBConnectionPool.release]
    split
    · next hlt => simp [Nat.succ_le_of_lt hlt]
    · simpa using h

theorem runOps_inv (ops : List PoolOp) :
    (runOps ops).conns.length ≤ (runOps ops).size := by
  suffices H : ∀ (l : List PoolOp) (s : PoolState), s.conns.length ≤ s.size →
      (l.foldl PoolOp.apply s).conns.length ≤ (l.foldl PoolOp.apply s).size by
    exact H ops DBConnectionPool.init (by simp [DBConnectionPool.init])
  intro l
  induction l with
  | nil => intro s h; simpa using h
  | cons op rest ih =>
    intro s h
    exact ih (PoolOp.apply s op) (poolOp_apply_length_le s op h)

/-- Draining a reserve of known contents: `length l` successive
`acquire` calls pop exactly the reserve, in stack order, and leave the
reserve empty without touching any other field. -/
theorem acquireN_drain (l : List Nat) (s : PoolState) (h : s.conns = l) :
    acquireN l.length s = (l, { s with conns := [] }) := by
  induction l generalizing s with
  | nil =>
    cases s with
    | mk conns size db_uri nextConn closed opened =>
      simp only [PoolState.mk.injEq] at h ⊢
      subst h
      simp [acquireN]
  | cons c rest ih =>
    have h2 : ({ s with conns := rest } : PoolState).conns = rest := rfl
    simp [acquireN, DBConnectionPool.acquire, h, ih _ h2]

/-- C4: from the freshly constructed pool, under any sequence of
`reload`/`acquire`/`release` operations, the idle reserve never holds
more connections than the configured size; and `release` caches the
connection exactly when the reserve is below the configured size,
closing it otherwise. -/
theorem pool_idle_reserve_bound :
    (∀ ops : List PoolOp, (runOps ops).conns.length ≤ (runOps ops).size) ∧
    (∀ (s : PoolState) (c : Nat),
      DBConnectionPool.release c s =
        if s.conns.length < s.size then { s with conns := c :: s.conns }
        else { s with closed := c :: s.closed }) :=
  ⟨runOps_inv, fun _ _ => rfl⟩

/-- C3 counterexample: a connection borrowed before a `reload` and
released after it CAN be cached back into the refreshed pool rather
than closed, when another `acquire` has made room in the reserve in
between.  Connection 0 is borrowed, the pool is reloaded, a second
request borrows the (sole) fresh connection 1, and then releasing the
stale connection 0 caches it (`0 ∈ conns`) instead of closing it
(`0 ∉ closed`). -/
theorem pool_stale_conn_recached :
    (DBConnectionPool.acquire
        (DBConnectionPool.reload 1 "postgresql://xivo"
          DBConnectionPool.init)).1 = 0 ∧
    (DBConnectionPool.release 0
        (DBConnectionPool.acquire
          (DBConnectionPool.reload 1 "postgresql://xivo"
            (DBConnectionPool.acquire
              (DBConnectionPool.reload 1 "postgresql://xivo"
                DBConnectionPool.init)).2)).2).conns = [0] ∧
    (DBConnectionPool.release 0
        (DBConnectionPool.acquire
          (DBConnectionPool.reload 1 "postgresql://xivo"
            (DBConnectionPool.acquire
              (DBConnectionPool.reload 1 "postgresql://xivo"
                DBConnectionPool.init)).2)).2).closed = [] := by
  refine ⟨rfl, ?_, rfl⟩
  rfl

/-- C3 amended: a connection released immediately after a `reload`,
with no intervening pool operation, is closed rather than cached,
because `reload` leaves the reserve exactly at the configured size and
`release` caches only below that size. -/
theorem pool_release_after_reload_closes (s : PoolState) (n : Nat) (u : String) (c : Nat) :
    DBConnectionPool.release c (DBConnectionPool.reload n u s) =
      { DBConnectionPool.reload n u s with
        closed := c :: (DBConnectionPool.reload n u s).closed } := by
  simp [DBConnectionPool.release, DBConnectionPool.reload]

/-- C5: `acquire` pops and returns the top of the reserve when the
reserve is non-empty, and otherwise opens a brand-new connection
against the current uri; after `reload n u`, `n` successive `acquire`
calls with no intervening `release` return exactly the `n` pooled
connections (pairwise distinct) and empty the reserve, and the
`(n+1)`-th `acquire` opens the fresh connection `nextConn + n` —
distinct from all pooled ones — against uri `u`. -/
theorem pool_acquire_spec :
    (∀ (s : PoolState) (c : Nat) (rest : List Nat), s.conns = c :: rest →
        DBConnectionPool.acquire s = (c, { s with conns := rest })) ∧
    (∀ s : PoolState, s.conns = [] →
        DBConnectionPool.acquire s =
          (s.nextConn, { s with nextConn := s.nextConn + 1
                                opened := (s.nextConn, s.db_uri) :: s.opened })) ∧
    (∀ (s : PoolState) (n : Nat) (u : String),
        (acquireN n (DBConnectionPool.reload n u s)).1 =
          (DBConnectionPool.reload n u s).conns ∧
        (acquireN n (DBConnectionPool.reload n u s)).1.Nodup ∧
        (acquireN n (DBConnectionPool.reload n u s)).1.length = n ∧
        (acquireN n (DBConnectionPool.reload n u s)).2.conns = [] ∧
        (DBConnectionPool.acquire (acquireN n (DBConnectionPool.reload n u s)).2).1 =
          s.nextConn + n ∧
        (DBConnectionPool.acquire (acquireN n (DBConnectionPool.reload n u s)).2).1 ∉
          (acquireN n (DBConnectionPool.reload n u s)).1 ∧
        (DBConnectionPool.acquire (acquireN n (DBConnectionPool.reload n u s)).2).2.opened.head? =
          some (s.nextConn + n, some u)) := by
  refine ⟨fun s c rest h => by simp [DBConnectionPool.acquire, h],
          fun s h => by simp [DBConnectionPool.acquire, h],
          fun s n u => ?_⟩
  have hlen : ((DBConnectionPool.reload n u s).conns).length = n := by
    simp [DBConnectionPool.reload]
  have hdrain := acquireN_drain (DBConnectionPool.reload n u s).conns
    (DBConnectionPool.reload n u s) rfl
  rw [hlen] at hdrain
  rw [hdrain]
  refine ⟨rfl, ?_, hlen, rfl, ?_, ?_, ?_⟩
  · simpa [DBConnectionPool.reload] using List.nodup_range' s.nextConn n
  · simp [DBConnectionPool.acquire, DBConnectionPool.reload]
  · simp [DBConnectionPool.acquire, DBConnectionPool.reload, List.mem_range'_1]
  · simp [DBConnectionPool.acquire, DBConnectionPool.reload]

/-- Witness for `pool_acquire_spec`: its hypotheses discharged at a
concrete one-connection pool state. -/
theorem pool_acquire_spec_witness :
    DBConnectionPool.acquire
        { conns := [5], size := 1, db_uri := some "u", nextConn := 6,
          closed := [], opened := [] } =
      (5, { conns := [], size := 1, db_uri := some "u", nextConn := 6,
            closed := [], opened := [] }) ∧
    DBConnectionPool.acquire
        { conns := [], size := 0, db_uri := some "u", nextConn := 2,
          closed := [], opened := [] } =
      (2, { conns := [], size := 0, db_uri := some "u", nextConn := 3,
            closed := [], opened := [(2, some "u")] }) :=
  ⟨pool_acquire_spec.1 _ 5 [] rfl, pool_acquire_spec.2.1 _ rfl⟩

/-! ## Handlers and their reader-writer locks (agid.py lines 163-192)

`moresynchro.RWLock` is an external collaborator; we model its state as
a reader count plus a writer flag.  `acquire_write` may be refused by
its deadlock-avoidance check; that outcome is an environment choice,
passed in as the Boolean oracle `ok`.  `acquire_read` blocks until it
succeeds, so in this sequential model it always succeeds. -/

/-- Abstract state of a `moresynchro.RWLock`. -/
structure RWLock where
  readers : Nat
  writer : Bool
  deriving Repr, DecidableEq

namespace RWLock

/-- A fresh lock, held by nobody. -/
def mk0 : RWLock := { readers := 0, writer := false }

/-- `lock.acquire_read()`: one more shared holder. -/
def acquire_read (l : RWLock) : RWLock := { l with readers := l.readers + 1 }

/-- `lock.acquire_write()`: succeeds (returning `true` and taking the
lock exclusively) unless the deadlock-avoidance check refuses, in which
case it returns `false` and the lock is untouched.  The oracle `ok`
resolves that environment choice. -/
def acquire_write (ok : Bool) (l : RWLock) : Bool × RWLock :=
  if ok then (true, { l with writer := true }) else (false, l)

/-- `lock.release()`: drops the exclusive hold if one is held,
otherwise drops one shared holder. -/
def release (l : RWLock) : RWLock :=
  if l.writer then { l with writer := false }
  else { l with readers := l.readers - 1 }

end RWLock

/-- Observable lock events of one `Handler` method call. -/
inductive LockEv where
  | readAcq
  | writeAcq
  | writeRefused
  | lockRel
  deriving Repr, DecidableEq

/-- State of one registered `Handler` (agid.py lines 163-192).  The
setup and handle routines themselves are external code; we record how
many times each has been invoked (`setupRuns`, `handleRuns`), which is
what the reload/dispatch claims are about. -/
structure HandlerSt where
  handler_name : String
  /-- `self.setup_fn is not None` -/
  has_setup : Bool
  /-- number of times `self.setup_fn(cursor)` has been invoked. -/
  setupRuns : Nat
  /-- number of times `self.handle_fn(agi, cursor, args)` has been
  invoked. -/
  handleRuns : Nat
  /-- `self.lock` -/
  lock : RWLock
  deriving Repr, DecidableEq

namespace Handler

/-- `Handler.setup(cursor)`: run the setup routine iff one was given. -/
def setup (h : HandlerSt) : HandlerSt :=
  if h.has_setup then { h with setupRuns := h.setupRuns + 1 } else h

/-- `Handler.reload(cursor)`.  Oracles: `writeOk` — the
deadlock-avoidance verdict of `acquire_write`; `setupRaises` — whether
`setup_fn(cursor)` raises.  Returns the new handler state, the lock
events, and whether an exception propagates out of `reload` (the
`finally` releases the lock first, then the exception escapes). -/
def reload (writeOk setupRaises : Bool) (h : HandlerSt) :
    HandlerSt × List LockEv × Bool :=
  if h.has_setup then
    let a := RWLock.acquire_write writeOk h.lock
    if a.1 then
      -- try: self.setup_fn(cursor) ... finally: self.lock.release()
      let h1 := { h with lock := a.2, setupRuns := h.setupRuns + 1 }
      ({ h1 with lock := h1.lock.release },
       [LockEv.writeAcq, LockEv.lockRel], setupRaises)
    else
      -- deadlock detected and avoided: log and return, nothing changed
      ({ h with lock := a.2 }, [LockEv.writeRefused], false)
  else
    (h, [], false)

/-- `Handler.handle(agi, cursor, args)`.  Oracles: `handleRaises` —
whether `handle_fn` raises; `scopeRaises` — whether the
`session_scope()` teardown raises.  The shared lock is taken at entry;
the `try/finally` releases it on every exit path, after which any
exception propagates. -/
def handle (handleRaises scopeRaises : Bool) (h : HandlerSt) :
    HandlerSt × List LockEv × Bool :=
  -- self.lock.acquire_read()
  let h1 := { h with lock := h.lock.acquire_read }
  -- try: with session_scope(): self.handle_fn(agi, cursor, args)
  let h2 := { h1 with handleRuns := h1.handleRuns + 1 }
  -- finally: self.lock.release(); then the exception (if any) escapes
  ({ h2 with lock := h2.lock.release },
   [LockEv.readAcq, LockEv.lockRel], handleRaises || scopeRaises)

end Handler

/-- The handler loop of `sighup_handle` (agid.py lines 213-214):
`for handler in _handlers.itervalues(): handler.reload(cursor)`.
Each list entry carries the two oracles for that handler's `reload`.
There is no per-handler exception guard: if one `reload` raises, the
loop aborts and the remaining handlers are left untouched. -/
def reloadLoop : List (Bool × Bool × HandlerSt) → List HandlerSt × Bool
  | [] => ([], false)
  | (wOk, sR, h) :: rest =>
    let r := Handler.reload wOk sR h
    if r.2.2 then
      (r.1 :: rest.map (fun t => t.2.2), true)
    else
      let q := reloadLoop rest
      (r.1 :: q.1, q.2)

/-- `Handler.reload` lets an exception escape exactly when a setup
routine is present, the write lock was granted, and the setup routine
raises. -/
theorem handler_reload_raises (wOk sR : Bool) (h : HandlerSt) :
    (Handler.reload wOk sR h).2.2 = (h.has_setup && wOk && sR) := by
  by_cases hs : h.has_setup <;> by_cases hw : wOk <;>
    simp [Handler.reload, RWLock.acquire_write, hs, hw]

/-- One `Handler.reload` call invokes the setup routine exactly once
when a setup routine exists and the write lock is granted, and not at
all otherwise. -/
theorem handler_reload_setupRuns (wOk sR : Bool) (h : HandlerSt) :
    (Handler.reload wOk sR h).1.setupRuns =
      h.setupRuns + (if h.has_setup && wOk then 1 else 0) := by
  by_cases hs : h.has_setup <;> by_cases hw : wOk <;>
    simp [Handler.reload, RWLock.acquire_write, hs, hw]

/-- C1 counterexample: two registered handlers, both with setup
routines and free locks; the first one's setup routine raises during
the signal-triggered reload loop.  The loop aborts: the second
handler's setup routine is never run (`setupRuns` stays 0, against the
claimed isolation), and the exception propagates out of the loop. -/
theorem reload_loop_not_isolated :
    ((reloadLoop
        [(true, true, ⟨"a_handler", true, 0, 0, RWLock.mk0⟩),
         (true, false, ⟨"b_handler", true, 0, 0, RWLock.mk0⟩)]).1.map
        HandlerSt.setupRuns = [1, 0]) ∧
    (reloadLoop
        [(true, true, ⟨"a_handler", true, 0, 0, RWLock.mk0⟩),
         (true, false, ⟨"b_handler", true, 0, 0, RWLock.mk0⟩)]).2 = true :=
  ⟨rfl, rfl⟩

/-- C1 amended: when no handler's setup routine raises, the reload
loop reaches every registered handler and re-runs each handler's setup
routine exactly once — except that a handler whose write acquisition is
refused by the deadlock-avoidance check, or which has no setup routine,
is skipped (that skip IS isolated per handler).  A setup routine that
raises, however, aborts the loop for all later handlers. -/
theorem reload_loop_amended (entries : List (Bool × Bool × HandlerSt))
    (hnr : ∀ e ∈ entries, e.2.1 = false) :
    (reloadLoop entries).2 = false ∧
    (reloadLoop entries).1 =
      entries.map (fun e => (Handler.reload e.1 e.2.1 e.2.2).1) ∧
    ∀ e ∈ entries,
      (Handler.reload e.1 e.2.1 e.2.2).1.setupRuns =
        e.2.2.setupRuns + (if e.2.2.has_setup && e.1 then 1 else 0) := by
  induction entries with
  | nil => simp [reloadLoop]
  | cons e rest ih =>
    obtain ⟨wOk, sR, h⟩ := e
    have hsR : sR = false := hnr _ (List.mem_cons_self _ _)
    subst hsR
    have hrest : ∀ e ∈ rest, e.2.1 = false := fun e he =>
      hnr e (List.mem_cons_of_mem _ he)
    obtain ⟨ih1, ih2, ih3⟩ := ih hrest
    have hr : (Handler.reload wOk false h).2.2 = false := by
      simp [handler_reload_raises]
    refine ⟨?_, ?_, ?_⟩
    · simp [reloadLoop, hr, ih1]
    · simp [reloadLoop, hr, ih2]
    · intro e he
      rcases List.mem_cons.mp he with rfl | he'
      · exact handler_reload_setupRuns wOk false h
      · exact ih3 e he'

/-- Witness for `reload_loop_amended` at a concrete two-handler
registry (one granted write lock, one refused). -/
theorem reload_loop_amended_witness :
    (∀ e ∈ [((true, false, ⟨"a_handler", true, 0, 0, RWLock.mk0⟩) :
              Bool × Bool × HandlerSt),
            (false, false, ⟨"b_handler", true, 2, 0, RWLock.mk0⟩)],
        e.2.1 = false) ∧
    ((reloadLoop
        [(true, false, ⟨"a_handler", true, 0, 0, RWLock.mk0⟩),
         (false, false, ⟨"b_handler", true, 2, 0, RWLock.mk0⟩)]).2 = false ∧
     (reloadLoop
        [(true, false, ⟨"a_handler", true, 0, 0, RWLock.mk0⟩),
         (false, false, ⟨"b_handler", true, 2, 0, RWLock.mk0⟩)]).1 =
       [(true, false, (⟨"a_handler", true, 0, 0, RWLock.mk0⟩ : HandlerSt)),
        (false, false, ⟨"b_handler", true, 2, 0, RWLock.mk0⟩)].map
         (fun e => (Handler.reload e.1 e.2.1 e.2.2).1) ∧
     ∀ e ∈ [((true, false, ⟨"a_handler", true, 0, 0, RWLock.mk0⟩) :
              Bool × Bool × HandlerSt),
            (false, false, ⟨"b_handler", true, 2, 0, RWLock.mk0⟩)],
        (Handler.reload e.1 e.2.1 e.2.2).1.setupRuns =
          e.2.2.setupRuns + (if e.2.2.has_setup && e.1 then 1 else 0)) :=
  ⟨by decide, reload_loop_amended _ (by decide)⟩

/-- C7: when the deadlock-avoidance check refuses the write lock, the
reload of that handler only is abandoned: the refusal is recorded
(logged), the setup routine is not invoked, the handler state —
including its setup-produced state and its lock — is unchanged, and no
exception escapes. -/
theorem handler_reload_write_refused (sR : Bool) (h : HandlerSt)
    (hs : h.has_setup = true) :
    Handler.reload false sR h = (h, [LockEv.writeRefused], false) := by
  cases h with
  | mk name has_s sRuns hRuns lock =>
    simp only at hs
    subst hs
    simp [Handler.reload, RWLock.acquire_write]

/-- Witness for `handler_reload_write_refused`. -/
theorem handler_reload_write_refused_witness :
    (⟨"agi_handler", true, 3, 1, RWLock.mk0⟩ : HandlerSt).has_setup = true ∧
    Handler.reload false false ⟨"agi_handler", true, 3, 1, RWLock.mk0⟩ =
      (⟨"agi_handler", true, 3, 1, RWLock.mk0⟩, [LockEv.writeRefused], false) :=
  ⟨rfl, handler_reload_write_refused false _ rfl⟩

/-- C9: a handler with no setup routine ignores both `setup` and
`reload`: the state is unchanged, no lock event at all occurs (the
lock is never acquired), and nothing is raised. -/
theorem handler_no_setup_noop (wOk sR : Bool) (h : HandlerSt)
    (hs : h.has_setup = false) :
    Handler.setup h = h ∧ Handler.reload wOk sR h = (h, [], false) := by
  simp [Handler.setup, Handler.reload, hs]

/-- Witness for `handler_no_setup_noop`. -/
theorem handler_no_setup_noop_witness :
    (⟨"agi_handler", false, 0, 4, RWLock.mk0⟩ : HandlerSt).has_setup = false ∧
    (Handler.setup ⟨"agi_handler", false, 0, 4, RWLock.mk0⟩ =
        ⟨"agi_handler", false, 0, 4, RWLock.mk0⟩ ∧
      Handler.reload true true ⟨"agi_handler", false, 0, 4, RWLock.mk0⟩ =
        (⟨"agi_handler", false, 0, 4, RWLock.mk0⟩, [], false)) :=
  ⟨rfl, handler_no_setup_noop true true _ rfl⟩

/-- C10: every `Handler.handle` call acquires the shared lock once and
releases it exactly once, on every exit path: whether the handle
routine raises, the session teardown raises, or both succeed, the
event trace is acquire-then-release, the reader count is restored, and
the lock is not left held (any exception still propagates after the
release). -/
theorem handler_handle_lock_discipline (handleRaises scopeRaises : Bool)
    (h : HandlerSt) (hw : h.lock.writer = false) :
    (Handler.handle handleRaises scopeRaises h).2.1 =
      [LockEv.readAcq, LockEv.lockRel] ∧
    ((Handler.handle handleRaises scopeRaises h).2.1).count LockEv.lockRel = 1 ∧
    (Handler.handle handleRaises scopeRaises h).1.lock.readers = h.lock.readers ∧
    (Handler.handle handleRaises scopeRaises h).1.lock.writer = false ∧
    (Handler.handle handleRaises scopeRaises h).2.2 =
      (handleRaises || scopeRaises) := by
  refine ⟨rfl, rfl, ?_, ?_, rfl⟩ <;>
    simp [Handler.handle, RWLock.acquire_read, RWLock.release, hw]

/-- Witness for `handler_handle_lock_discipline`: a handle routine
that raises, on a handler whose lock has one other concurrent reader. -/
theorem handler_handle_lock_discipline_witness :
    (⟨"agi_handler", true, 1, 0, ⟨1, false⟩⟩ : HandlerSt).lock.writer = false ∧
    ((Handler.handle true false ⟨"agi_handler", true, 1, 0, ⟨1, false⟩⟩).2.1 =
        [LockEv.readAcq, LockEv.lockRel] ∧
      ((Handler.handle true false
          ⟨"agi_handler", true, 1, 0, ⟨1, false⟩⟩).2.1).count LockEv.lockRel = 1 ∧
      (Handler.handle true false
          ⟨"agi_handler", true, 1, 0, ⟨1, false⟩⟩).1.lock.readers =
        (⟨"agi_handler", true, 1, 0, ⟨1, false⟩⟩ : HandlerSt).lock.readers ∧
      (Handler.handle true false
          ⟨"agi_handler", true, 1, 0, ⟨1, false⟩⟩).1.lock.writer = false ∧
      (Handler.handle true false ⟨"agi_handler", true, 1, 0, ⟨1, false⟩⟩).2.2 =
        (true || false)) :=
  ⟨rfl, handler_handle_lock_discipline true false _ rfl⟩

/-! ## The FastAGI request dispatcher (agid.py lines 75-125)

`FastAGIRequestHandler.handle` decodes the request (external
collaborator `fastagi.FastAGI`), borrows a DB connection, looks the
handler up by the name in the request header and runs it, commits on
success, always releases the connection (`try/finally`), and maps
exceptions to best-effort fail signalling over the connection.  The
handler body's outcome is an environment choice, given as
`HandlerBehavior`. -/

/-- Outcome of running `_handlers[name].handle(fagi, cursor, fagi.args)`. -/
inductive HandlerBehavior where
  /-- the handle routine returns normally. -/
  | ok
  /-- the handle routine raises `fastagi.FastAGIDialPlanBreak`
  (policy rejection). -/
  | dialPlanBreak
  /-- the handle routine raises any other exception. -/
  | raises
  deriving Repr, DecidableEq

/-- Exceptions crossing the dispatcher's inner `try`. -/
inductive AgiExn where
  | dialPlanBreak
  | keyError
  | other
  deriving Repr, DecidableEq

/-- Observable events of one dispatched request, in order. -/
inductive REv where
  /-- `self.server.db_conn_pool.acquire()` returned this connection. -/
  | acquired (conn : Nat)
  /-- `_handlers[name].handle(...)` was invoked. -/
  | handled (handler_name : String)
  /-- `conn.commit()` -/
  | committed (conn : Nat)
  /-- success acknowledgment `fagi.verbose(...)` -/
  | verboseOk
  /-- `self.server.db_conn_pool.release(conn)` -/
  | released (conn : Nat)
  /-- the best-effort fail-command sequence
  (`appexec Goto agi_fail` / `fagi.fail()`). -/
  | failSent
  deriving Repr, DecidableEq

def REv.isAcquired : REv → Bool
  | .acquired _ => true
  | _ => false

def REv.isCommitted : REv → Bool
  | .committed _ => true
  | _ => false

def REv.isReleased : REv → Bool
  | .released _ => true
  | _ => false

/-- The dispatcher's inner `try` body (agid.py lines 86-96): look the
handler name up (`KeyError` when absent), run it, commit, acknowledge.
Returns the events and the exception, if any, escaping the body. -/
def handleBody (registry : List String) (handler_name : String)
    (b : HandlerBehavior) (conn : Nat) : List REv × Option AgiExn :=
  if registry.contains handler_name then
    match b with
    | .ok => ([REv.handled handler_name, REv.committed conn, REv.verboseOk], none)
    | .dialPlanBreak => ([REv.handled handler_name], some AgiExn.dialPlanBreak)
    | .raises => ([REv.handled handler_name], some AgiExn.other)
  else
    -- `_handlers[handler_name]` raises KeyError before any handler runs
    ([], some AgiExn.keyError)

/-- `FastAGIRequestHandler.handle`: borrow a connection, run the inner
body, always release the connection (`finally`), then map any escaping
exception — dial-plan break or unexpected — to the best-effort
fail-command sequence.  Total: no exception crosses the connection
boundary. -/
def fastagi_handle (registry : List String) (handler_name : String)
    (b : HandlerBehavior) (pool : PoolState) : PoolState × List REv :=
  let a := DBConnectionPool.acquire pool
  let r := handleBody registry handler_name b a.1
  let p2 := DBConnectionPool.release a.1 a.2
  match r.2 with
  | none => (p2, REv.acquired a.1 :: r.1 ++ [REv.released a.1])
  | some _ => (p2, REv.acquired a.1 :: r.1 ++ [REv.released a.1, REv.failSent])

/-! ## Handler registration (agid.py lines 195-201) -/

/-- A Python function object, as far as registration cares: its
`__name__`. -/
structure PyFn where
  fname : String
  deriving Repr, DecidableEq

/-- The `ValueError` raised on duplicate registration. -/
inductive RegError where
  | alreadyRegistered (handler_name : String)
  deriving Repr, DecidableEq

/-- `register(handle_fn, setup_fn=None)`: the handler name is the
handle routine's `__name__`; a name already present in `_handlers` is a
fatal `ValueError` raised before any assignment (so the registry is
unchanged), otherwise a fresh `Handler` is stored under that name. -/
def register (handle_fn : PyFn) (setup_fn : Option PyFn)
    (handlers : List (String × HandlerSt)) :
    Except RegError (List (String × HandlerSt)) :=
  let handler_name := handle_fn.fname
  if (handlers.lookup handler_name).isSome then
    Except.error (RegError.alreadyRegistered handler_name)
  else
    Except.ok ((handler_name,
      ⟨handler_name, setup_fn.isSome, 0, 0, RWLock.mk0⟩) :: handlers)

/-- C2: every dispatched request borrows exactly one connection from
the pool and releases exactly the same connection exactly once back to
the pool, whatever the outcome; `conn.commit()` runs exactly once when
the selected handler is registered and its handle routine succeeds,
and zero times on every failure path (handler raises, policy
rejection, handler name unknown). -/
theorem fastagi_db_discipline (registry : List String) (handler_name : String)
    (b : HandlerBehavior) (pool : PoolState) :
    ((fastagi_handle registry handler_name b pool).2.countP REv.isAcquired = 1) ∧
    ((fastagi_handle registry handler_name b pool).2.countP REv.isReleased = 1) ∧
    ((fastagi_handle registry handler_name b pool).2.countP REv.isCommitted =
      if registry.contains handler_name ∧ b = HandlerBehavior.ok then 1 else 0) ∧
    (REv.acquired (DBConnectionPool.acquire pool).1 ∈
      (fastagi_handle registry handler_name b pool).2) ∧
    (REv.released (DBConnectionPool.acquire pool).1 ∈
      (fastagi_handle registry handler_name b pool).2) ∧
    (fastagi_handle registry handler_name b pool).1 =
      DBConnectionPool.release (DBConnectionPool.acquire pool).1
        (DBConnectionPool.acquire pool).2 := by
  by_cases hc : handler_name ∈ registry <;> cases b <;>
    simp [fastagi_handle, handleBody, hc, List.countP_cons, REv.isAcquired,
      REv.isCommitted, REv.isReleased]

/-- C8: a request whose header names an unregistered handler is
treated as an unexpected failure: no handler runs, nothing is
committed, the fail-command sequence is sent, the borrowed connection
is still released, and the dispatcher returns normally (the failure
does not cross the connection boundary). -/
theorem fastagi_unregistered (registry : List String) (handler_name : String)
    (b : HandlerBehavior) (pool : PoolState)
    (h : handler_name ∉ registry) :
    fastagi_handle registry handler_name b pool =
      (DBConnectionPool.release (DBConnectionPool.acquire pool).1
         (DBConnectionPool.acquire pool).2,
       [REv.acquired (DBConnectionPool.acquire pool).1,
        REv.released (DBConnectionPool.acquire pool).1, REv.failSent]) ∧
    ((fastagi_handle registry handler_name b pool).2.countP REv.isCommitted = 0) := by
  constructor
  · simp [fastagi_handle, handleBody, h]
  · simp [fastagi_handle, handleBody, h, REv.isCommitted]

/-- Witness for `fastagi_unregistered`: the `"ghost_handler"` scenario
against an empty registry and a fresh pool. -/
theorem fastagi_unregistered_witness :
    "ghost_handler" ∉ ([] : List String) ∧
    (fastagi_handle [] "ghost_handler" HandlerBehavior.ok DBConnectionPool.init =
       (DBConnectionPool.release
          (DBConnectionPool.acquire DBConnectionPool.init).1
          (DBConnectionPool.acquire DBConnectionPool.init).2,
        [REv.acquired (DBConnectionPool.acquire DBConnectionPool.init).1,
         REv.released (DBConnectionPool.acquire DBConnectionPool.init).1,
         REv.failSent]) ∧
     (fastagi_handle [] "ghost_handler" HandlerBehavior.ok
         DBConnectionPool.init).2.countP REv.isCommitted = 0) :=
  ⟨List.not_mem_nil _, fastagi_unregistered [] "ghost_handler" HandlerBehavior.ok
    DBConnectionPool.init (List.not_mem_nil _)⟩

/-- C6: registration is name-unique.  A `register` call whose derived
handler name is already present raises the fatal `ValueError` — before
any assignment, so the previous entry is never overwritten — and a
call with a fresh name adds exactly that one entry: the new name now
resolves to the freshly constructed handler and every other name
resolves as before. -/
theorem register_unique (handlers : List (String × HandlerSt))
    (handle_fn : PyFn) (setup_fn : Option PyFn) :
    ((handlers.lookup handle_fn.fname).isSome = true →
      register handle_fn setup_fn handlers =
        Except.error (RegError.alreadyRegistered handle_fn.fname)) ∧
    (handlers.lookup handle_fn.fname = none →
      register handle_fn setup_fn handlers =
        Except.ok ((handle_fn.fname,
          ⟨handle_fn.fname, setup_fn.isSome, 0, 0, RWLock.mk0⟩) :: handlers) ∧
      ((handle_fn.fname,
          (⟨handle_fn.fname, setup_fn.isSome, 0, 0, RWLock.mk0⟩ : HandlerSt)) ::
            handlers).lookup handle_fn.fname =
        some ⟨handle_fn.fname, setup_fn.isSome, 0, 0, RWLock.mk0⟩ ∧
      ∀ n : String, n ≠ handle_fn.fname →
        ((handle_fn.fname,
            (⟨handle_fn.fname, setup_fn.isSome, 0, 0, RWLock.mk0⟩ : HandlerSt)) ::
              handlers).lookup n = handlers.lookup n) := by
  constructor
  · intro h
    simp [register, h]
  · intro h
    refine ⟨by simp [register, h], by simp [List.lookup], ?_⟩
    intro n hn
    have hb : (n == handle_fn.fname) = false := beq_eq_false_iff_ne.mpr hn
    simp [List.lookup, hb]

/-- Witness for `register_unique`: a one-entry registry; registering
`"agi_fwd"` again fails, registering fresh `"agi_callback"` succeeds
and leaves `"agi_fwd"` resolving as before. -/
theorem register_unique_witness :
    (([("agi_fwd", (⟨"agi_fwd", false, 0, 0, RWLock.mk0⟩ : HandlerSt))].lookup
        (PyFn.mk "agi_fwd").fname).isSome = true ∧
      register ⟨"agi_fwd"⟩ none
          [("agi_fwd", ⟨"agi_fwd", false, 0, 0, RWLock.mk0⟩)] =
        Except.error (RegError.alreadyRegistered (PyFn.mk "agi_fwd").fname)) ∧
    ([("agi_fwd", (⟨"agi_fwd", false, 0, 0, RWLock.mk0⟩ : HandlerSt))].lookup
        (PyFn.mk "agi_callback").fname = none ∧
      register ⟨"agi_callback"⟩ (some ⟨"setup_cb"⟩)
          [("agi_fwd", ⟨"agi_fwd", false, 0, 0, RWLock.mk0⟩)] =
        Except.ok (((PyFn.mk "agi_callback").fname,
          ⟨(PyFn.mk "agi_callback").fname, (some (PyFn.mk "setup_cb")).isSome, 0, 0,
            RWLock.mk0⟩) ::
          [("agi_fwd", ⟨"agi_fwd", false, 0, 0, RWLock.mk0⟩)]) ∧
      (((PyFn.mk "agi_callback").fname,
          (⟨(PyFn.mk "agi_callback").fname, (some (PyFn.mk "setup_cb")).isSome, 0, 0,
            RWLock.mk0⟩ : HandlerSt)) ::
        [("agi_fwd", ⟨"agi_fwd", false, 0, 0, RWLock.mk0⟩)]).lookup
          (PyFn.mk "agi_callback").fname =
        some ⟨(PyFn.mk "agi_callback").fname, (some (PyFn.mk "setup_cb")).isSome, 0, 0,
          RWLock.mk0⟩ ∧
      ∀ n : String, n ≠ (PyFn.mk "agi_callback").fname →
        (((PyFn.mk "agi_callback").fname,
            (⟨(PyFn.mk "agi_callback").fname, (some (PyFn.mk "setup_cb")).isSome, 0, 0,
              RWLock.mk0⟩ : HandlerSt)) ::
          [("agi_fwd", ⟨"agi_fwd", false, 0, 0, RWLock.mk0⟩)]).lookup n =
          [("agi_fwd",
            (⟨"agi_fwd", false, 0, 0, RWLock.mk0⟩ : HandlerSt))].lookup n) :=
  ⟨⟨by decide,
    (register_unique [("agi_fwd", ⟨"agi_fwd", false, 0, 0, RWLock.mk0⟩)]
      ⟨"agi_fwd"⟩ none).1 (by decide)⟩,
   ⟨by decide,
    (register_unique [("agi_fwd", ⟨"agi_fwd", false, 0, 0, RWLock.mk0⟩)]
      ⟨"agi_callback"⟩ (some ⟨"setup_cb"⟩)).2 (by decide)⟩⟩

end XivoAgid
